import Mathlib

/-!
Verification development for a supplier-risk business-intelligence dashboard
(`app.py`) and its connectivity diagnostic script (`test_connection.py`).

The program connects to a cloud warehouse, runs four fixed read-only SQL
queries (each memoized with a 300-second TTL), and renders the result sets as
metrics, a table, charts and an alert list inside one try/except render pass.

Numeric sentiment scores are modelled as rationals (`Rat`); a possibly-NaN
column value is `Option Rat` with `none` playing the role of NaN/NULL.
External collaborators (the Streamlit cache decorators, the SQL engine's
ORDER BY / LIMIT, the warehouse handshake) are modelled from the spec's
description of their contract, as noted on each definition.
-/

/-! Section: Data model: the four row types, one per query (spec §3) -/

/-- One row of `V_SUPPLIER_RISK_SCORE` (query in `get_supplier_risk_scores`).
Columns consumed by the dashboard: `RISK_CATEGORY`, `AVG_SENTIMENT_SCORE`,
`TOTAL_COMMUNICATIONS`, `NEGATIVE_COUNT`; `AVG_SENTIMENT_SCORE` may be
NULL/NaN (`none`). -/
structure RiskScoreRow where
  SUPPLIER_ID : Nat
  SUPPLIER_NAME : String
  AVG_SENTIMENT_SCORE : Option Rat
  TOTAL_COMMUNICATIONS : Nat
  NEGATIVE_COUNT : Nat
  RISK_CATEGORY : String
deriving DecidableEq, Repr

/-- One row of `V_RECENT_ALERTS` (query in `get_recent_alerts`); the columns
the alert list reads in `main`. The communication date is carried as its
rendered string. -/
structure AlertRow where
  SUPPLIER_NAME : String
  SUBJECT : String
  COMMUNICATION_DATE : String
  SENTIMENT_SCORE : Rat
  SOURCE_TYPE : String
  KEY_PHRASES : String
deriving DecidableEq, Repr

/-- One row of the sentiment-trend aggregation query in `get_sentiment_trend`:
(day, average sentiment, communication count). Days are indexed by `Nat`. -/
structure TrendPoint where
  DATE : Nat
  AVG_SENTIMENT : Rat
  COMM_COUNT : Nat
deriving DecidableEq, Repr

/-- One row of the category aggregation query in `get_category_analysis`. -/
structure CategoryRow where
  CATEGORY : String
  SUPPLIER_COUNT : Nat
  AVG_SENTIMENT : Rat
  NEGATIVE_COUNT : Nat
deriving DecidableEq, Repr

/-! Section: Connection provider (`get_snowflake_connection`, app.py lines 21-31) -/

/-- The six environment configuration values read by `os.getenv` in
`get_snowflake_connection` and in `test_connection.py`. -/
structure SnowflakeEnv where
  SNOWFLAKE_ACCOUNT : String
  SNOWFLAKE_USER : String
  SNOWFLAKE_PASSWORD : String
  SNOWFLAKE_WAREHOUSE : String
  SNOWFLAKE_DATABASE : String
  SNOWFLAKE_SCHEMA : String
deriving DecidableEq, Repr

/-- A live warehouse connection handle, recording the configuration it was
opened with. -/
structure SnowflakeConnection where
  account : String
  user : String
  password : String
  warehouse : String
  database : String
  schema : String
deriving DecidableEq, Repr

/-- Modelled from the spec: `snowflake.connector.connect` is an external
library call; per spec §4.1/§6 it opens a connection from the six environment
values and a handshake failure propagates as an exception. The handshake
outcome is an explicit parameter. -/
def snowflake_connect (handshakeOk : Bool) (env : SnowflakeEnv) :
    Except String SnowflakeConnection :=
  if handshakeOk then
    .ok ⟨env.SNOWFLAKE_ACCOUNT, env.SNOWFLAKE_USER, env.SNOWFLAKE_PASSWORD,
         env.SNOWFLAKE_WAREHOUSE, env.SNOWFLAKE_DATABASE, env.SNOWFLAKE_SCHEMA⟩
  else
    .error "handshake failed"

/-- Process-wide resource-cache state behind `@st.cache_resource`:
the memoized connection (if any) and how many times `snowflake_connect`
has been invoked. -/
structure ResourceCache where
  cached : Option SnowflakeConnection
  connectCalls : Nat
deriving DecidableEq, Repr

/-- Modelled from the spec: `@st.cache_resource` is external; per spec §4.1
the decorated `get_snowflake_connection` constructs the connection on first
call and every subsequent call returns the same handle, while a handshake
failure propagates to the caller uncaught at this layer. -/
def get_snowflake_connection (handshakeOk : Bool) (env : SnowflakeEnv)
    (st : ResourceCache) : Except String (SnowflakeConnection × ResourceCache) :=
  match st.cached with
  | some c => .ok (c, st)
  | none =>
    match snowflake_connect handshakeOk env with
    | .ok c => .ok (c, ⟨some c, st.connectCalls + 1⟩)
    | .error e => .error e

/-! Section: Query cache layer (`@st.cache_data(ttl=300)`, app.py lines 34-83) -/

/-- One memoized value tagged with the completion timestamp of the query
execution that produced it (spec §4.2). Time is in seconds. -/
structure CacheEntry (α : Type) where
  value : α
  storedAt : Nat
deriving DecidableEq, Repr

/-- State of one `@st.cache_data` cache: the current entry (if any) and the
number of underlying query executions so far. -/
structure CacheState (α : Type) where
  entry : Option (CacheEntry α)
  execCount : Nat
deriving DecidableEq, Repr

/-- Modelled from the spec: `@st.cache_data(ttl=...)` is external; per spec
§4.2 a call either returns the stored row-set (when the entry has not aged
beyond `ttl` seconds) or executes the underlying query once, returns the
fresh row-set and stores it tagged with the completion timestamp.
`query t` is the row-set the underlying query computes when run at time
`t` (the warehouse contents may change over time). -/
def cachedCall {α : Type} (ttl : Nat) (query : Nat → α) (now : Nat)
    (st : CacheState α) : α × CacheState α :=
  match st.entry with
  | some e =>
    if now - e.storedAt ≤ ttl then
      (e.value, st)
    else
      let v := query now
      (v, ⟨some ⟨v, now⟩, st.execCount + 1⟩)
  | none =>
    let v := query now
    (v, ⟨some ⟨v, now⟩, st.execCount + 1⟩)

/-! Section: The four query result shapes

The SQL text lives in app.py; the ORDER BY and LIMIT clauses it contains are
executed by the warehouse (an external collaborator), so the row-level effect
of those clauses is modelled from the spec. The underlying view contents are
a parameter. -/

/-- SQL NULLS-last ascending comparison on a possibly-NULL numeric column
(the warehouse default for ORDER BY ... ASC). -/
def nullsLastLe (a b : Option Rat) : Prop :=
  match a, b with
  | _, none => True
  | none, some _ => False
  | some x, some y => x ≤ y

instance : DecidableRel nullsLastLe := fun a b => by
  cases a <;> cases b <;> simp only [nullsLastLe] <;> infer_instance

/-- Row order of `ORDER BY AVG_SENTIMENT_SCORE ASC` in the risk-score query. -/
def riskLe (r₁ r₂ : RiskScoreRow) : Prop :=
  nullsLastLe r₁.AVG_SENTIMENT_SCORE r₂.AVG_SENTIMENT_SCORE

instance : DecidableRel riskLe := fun a b =>
  inferInstanceAs (Decidable (nullsLastLe _ _))

instance : IsTotal RiskScoreRow riskLe :=
  ⟨fun a b => by
    unfold riskLe nullsLastLe
    rcases a.AVG_SENTIMENT_SCORE with _ | x <;> rcases b.AVG_SENTIMENT_SCORE with _ | y <;>
      simp [le_total]⟩

instance : IsTrans RiskScoreRow riskLe :=
  ⟨fun a b c => by
    unfold riskLe nullsLastLe
    rcases a.AVG_SENTIMENT_SCORE with _ | x <;> rcases b.AVG_SENTIMENT_SCORE with _ | y <;>
      rcases c.AVG_SENTIMENT_SCORE with _ | z <;> simp
    exact le_trans⟩

/-- Row order of `ORDER BY AVG_SENTIMENT ASC` in the category query. -/
def catLe (c₁ c₂ : CategoryRow) : Prop :=
  c₁.AVG_SENTIMENT ≤ c₂.AVG_SENTIMENT

instance : DecidableRel catLe := fun a b =>
  inferInstanceAs (Decidable (_ ≤ _))

instance : IsTotal CategoryRow catLe := ⟨fun a b => le_total _ _⟩

instance : IsTrans CategoryRow catLe := ⟨fun _ _ _ => le_trans⟩

/-- Modelled from the spec: result of
`SELECT * FROM V_SUPPLIER_RISK_SCORE ORDER BY AVG_SENTIMENT_SCORE ASC`
on view contents `view` — the view rows sorted ascending by the aggregate
sentiment column (warehouse-executed ORDER BY). -/
def runRiskScoreQuery (view : List RiskScoreRow) : List RiskScoreRow :=
  List.insertionSort riskLe view

/-- Modelled from the spec: result of
`SELECT * FROM V_RECENT_ALERTS LIMIT 10` on view contents `view` — at most
the first 10 rows the view yields (warehouse-executed LIMIT). -/
def runRecentAlertsQuery (view : List AlertRow) : List AlertRow :=
  view.take 10

/-- Modelled from the spec: result of the category aggregation query with its
`ORDER BY AVG_SENTIMENT ASC` — the per-category rollup rows sorted ascending
by average sentiment (warehouse-executed aggregation is the parameter,
the ORDER BY is applied here). -/
def runCategoryQuery (rollup : List CategoryRow) : List CategoryRow :=
  List.insertionSort catLe rollup

/-! Section: The four cached accessors over a shared dashboard state -/

/-- Warehouse contents over time, one component per query, each giving the
pre-ORDER-BY/LIMIT row collection the query would draw from at time `t`.
The trend query's aggregation output is taken as a whole (its SQL is pure
warehouse-side aggregation with no clause the dashboard layer owns). -/
structure Warehouse where
  riskView : Nat → List RiskScoreRow
  alertsView : Nat → List AlertRow
  trendData : Nat → List TrendPoint
  categoryRollup : Nat → List CategoryRow

/-- The four process-wide caches, one per accessor (spec §4.2: four separate
300-second windows). -/
structure DashState where
  riskCache : CacheState (List RiskScoreRow)
  alertsCache : CacheState (List AlertRow)
  trendCache : CacheState (List TrendPoint)
  categoryCache : CacheState (List CategoryRow)
deriving DecidableEq, Repr

/-- `get_supplier_risk_scores` (app.py lines 34-40): TTL-300 memoization of
the risk-score query. -/
def get_supplier_risk_scores (w : Warehouse) (now : Nat) (st : DashState) :
    List RiskScoreRow × DashState :=
  let r := cachedCall 300 (fun t => runRiskScoreQuery (w.riskView t)) now st.riskCache
  (r.1, { st with riskCache := r.2 })

/-- `get_recent_alerts` (app.py lines 42-48): TTL-300 memoization of the
recent-alerts query. -/
def get_recent_alerts (w : Warehouse) (now : Nat) (st : DashState) :
    List AlertRow × DashState :=
  let r := cachedCall 300 (fun t => runRecentAlertsQuery (w.alertsView t)) now st.alertsCache
  (r.1, { st with alertsCache := r.2 })

/-- `get_sentiment_trend` (app.py lines 50-65): TTL-300 memoization of the
trend aggregation query. -/
def get_sentiment_trend (w : Warehouse) (now : Nat) (st : DashState) :
    List TrendPoint × DashState :=
  let r := cachedCall 300 w.trendData now st.trendCache
  (r.1, { st with trendCache := r.2 })

/-- `get_category_analysis` (app.py lines 67-83): TTL-300 memoization of the
category aggregation query. -/
def get_category_analysis (w : Warehouse) (now : Nat) (st : DashState) :
    List CategoryRow × DashState :=
  let r := cachedCall 300 (fun t => runCategoryQuery (w.categoryRollup t)) now st.categoryCache
  (r.1, { st with categoryCache := r.2 })

/-! Section: Presentation layer (`main`, app.py lines 86-253)

The page is modelled as the ordered list of widgets `main` emits. Widgets
carry their data pre-formatting (no decimal string formatting is modelled).
-/

/-- One emitted page element. `metricRat` carries `none` when the underlying
pandas mean is NaN (empty input). -/
inductive Widget where
  | title (text : String)
  | markdown (text : String)
  | subheader (text : String)
  | metricNat (label : String) (value : Nat)
  | metricRat (label : String) (value : Option Rat)
  | dataframe (rows : List RiskScoreRow)
  | pieChart (counts : List (String × Nat))
  | trendChart (points : List TrendPoint)
  | barChartRat (yColumn : String) (points : List (String × Rat))
  | barChartNat (yColumn : String) (points : List (String × Nat))
  | alertExpander (supplier subject date : String) (score : Rat)
      (source summary : String)
  | errorBanner (text : String)
  | infoHint (text : String)
deriving DecidableEq, Repr

/-- Modelled from the spec: pandas `Series.mean()` is external; it skips
NaN values and yields NaN (`none`) when no value remains. -/
def pandasMean (column : List (Option Rat)) : Option Rat :=
  let xs := column.filterMap id
  if xs.length = 0 then none else some (xs.sum / (xs.length : Rat))

/-- Distinct values of a column in first-appearance order. -/
def distinctValues : List String → List String
  | [] => []
  | x :: xs => x :: distinctValues (xs.filter (fun y => y ≠ x))
termination_by l => l.length
decreasing_by
  simp only [List.length_cons]
  exact Nat.lt_succ_of_le (List.length_filter_le _ _)

/-- Modelled from the spec: pandas `value_counts()` on the risk-category
column, feeding the proportion pie chart — each occurring category with its
row count (the pandas count-descending display order is not modelled; no
property depends on it). -/
def value_counts (column : List String) : List (String × Nat) :=
  (distinctValues column).map (fun c => (c, column.countP (· == c)))

/-- Alert expander block emitted per alert row (app.py lines 232-242):
supplier, subject, date, sentiment score, source type, key-phrases summary. -/
def mkAlertWidget (r : AlertRow) : Widget :=
  .alertExpander r.SUPPLIER_NAME r.SUBJECT r.COMMUNICATION_DATE
    r.SENTIMENT_SCORE r.SOURCE_TYPE r.KEY_PHRASES

/-- Body of the render pass after a successful fetch of all four row-sets
(app.py lines 99-246), in emission order. `risk_scores.style` only colors
cells, so the dataframe widget carries the snapshot rows unchanged. -/
def renderBody (risk_scores : List RiskScoreRow) (alerts : List AlertRow)
    (trend_data : List TrendPoint) (category_data : List CategoryRow) :
    List Widget :=
  [Widget.metricNat "🔴 High Risk Suppliers"
      ((risk_scores.filter (fun r => r.RISK_CATEGORY == "HIGH_RISK")).length),
   Widget.metricRat "📊 Avg Sentiment Score"
      (pandasMean (risk_scores.map (·.AVG_SENTIMENT_SCORE))),
   Widget.metricNat "📧 Total Communications"
      ((risk_scores.map (·.TOTAL_COMMUNICATIONS)).sum),
   Widget.metricNat "⚠️ Negative Alerts"
      ((risk_scores.map (·.NEGATIVE_COUNT)).sum),
   Widget.markdown "---",
   Widget.subheader "📋 Supplier Risk Scores",
   Widget.dataframe risk_scores,
   Widget.subheader "🎯 Risk Distribution",
   Widget.pieChart (value_counts (risk_scores.map (·.RISK_CATEGORY))),
   Widget.markdown "---",
   Widget.subheader "📈 Sentiment Trend Over Time",
   Widget.trendChart trend_data,
   Widget.markdown "---",
   Widget.subheader "📦 Risk by Category",
   Widget.barChartRat "AVG_SENTIMENT"
      (category_data.map (fun c => (c.CATEGORY, c.AVG_SENTIMENT))),
   Widget.subheader "⚠️ Negative Communications by Category",
   Widget.barChartNat "NEGATIVE_COUNT"
      (category_data.map (fun c => (c.CATEGORY, c.NEGATIVE_COUNT))),
   Widget.markdown "---",
   Widget.subheader "🚨 Recent Negative Alerts"]
  ++ alerts.map mkAlertWidget
  ++ [Widget.markdown "---",
      Widget.markdown "*Built with Snowflake Cortex ML | Data refreshes every 5 minutes*"]

/-- The sequential data fetch inside the try block (app.py lines 94-97):
the first failing fetch aborts the rest. Each argument is the outcome of the
corresponding cached accessor. -/
def fetchAll (fr : Except String (List RiskScoreRow))
    (fa : Except String (List AlertRow)) (ft : Except String (List TrendPoint))
    (fc : Except String (List CategoryRow)) :
    Except String (List RiskScoreRow × List AlertRow × List TrendPoint × List CategoryRow) := do
  let risk_scores ← fr
  let alerts ← fa
  let trend_data ← ft
  let category_data ← fc
  pure (risk_scores, alerts, trend_data, category_data)

/-- Header widgets emitted before the try block (app.py lines 88-90). -/
def headerWidgets : List Widget :=
  [Widget.title "🔍 Supplier Risk Intelligence Dashboard",
   Widget.markdown "*Powered by Snowflake Cortex ML*",
   Widget.markdown "---"]

namespace App

/-- `main` (app.py lines 86-253): header, then either the full body or —
when any fetch raises — the single error banner and remediation hint from
the except branch (lines 248-250). (Namespaced because a bare `main` is
reserved for executable entry points.) -/
def main (fr : Except String (List RiskScoreRow))
    (fa : Except String (List AlertRow)) (ft : Except String (List TrendPoint))
    (fc : Except String (List CategoryRow)) : List Widget :=
  headerWidgets ++
    match fetchAll fr fa ft fc with
    | .ok (risk_scores, alerts, trend_data, category_data) =>
        renderBody risk_scores alerts trend_data category_data
    | .error e =>
        [Widget.errorBanner ("❌ Error connecting to Snowflake: " ++ e),
         Widget.infoHint "Please check your .env file and ensure Snowflake credentials are correct."]

end App

/-! Section: Observers over the emitted page (used to state the properties) -/

/-- The value of the first metric widget with the given label, if any. -/
def displayedMetricNat (label : String) (ws : List Widget) : Option Nat :=
  ws.findSome? fun w =>
    match w with
    | .metricNat l n => if l = label then some n else none
    | _ => none

/-- The value of the first rational metric widget with the given label. -/
def displayedMetricRat (label : String) (ws : List Widget) : Option (Option Rat) :=
  ws.findSome? fun w =>
    match w with
    | .metricRat l v => if l = label then some v else none
    | _ => none

/-- The rows of the first dataframe widget on the page, if any. -/
def displayedTableRows (ws : List Widget) : Option (List RiskScoreRow) :=
  ws.findSome? fun w =>
    match w with
    | .dataframe rows => some rows
    | _ => none

/-- The data points of the first bar chart plotting the given y column. -/
def displayedBarChartRat (yColumn : String) (ws : List Widget) :
    Option (List (String × Rat)) :=
  ws.findSome? fun w =>
    match w with
    | .barChartRat y pts => if y = yColumn then some pts else none
    | _ => none

/-- The data points of the first Nat-valued bar chart with the given y column. -/
def displayedBarChartNat (yColumn : String) (ws : List Widget) :
    Option (List (String × Nat)) :=
  ws.findSome? fun w =>
    match w with
    | .barChartNat y pts => if y = yColumn then some pts else none
    | _ => none

/-- The alert entries on the page, each as its six displayed fields. -/
def displayedAlertEntries (ws : List Widget) :
    List (String × String × String × Rat × String × String) :=
  ws.filterMap fun w =>
    match w with
    | .alertExpander supplier subject date score source summary =>
        some (supplier, subject, date, score, source, summary)
    | _ => none

/-- True for widgets that belong to the data-driven body of the page
(metrics, table, charts, alert entries) as opposed to static chrome or the
error branch. -/
def isBodyWidget : Widget → Bool
  | .metricNat _ _ => true
  | .metricRat _ _ => true
  | .dataframe _ => true
  | .pieChart _ => true
  | .trendChart _ => true
  | .barChartRat _ _ => true
  | .barChartNat _ _ => true
  | .alertExpander _ _ _ _ _ _ => true
  | _ => false

/-! Section: Diagnostic script (`test_connection.py`) -/

/-- Observable outcome of one run of the diagnostic script. -/
structure ScriptRun where
  printed : List String
  exitCode : Nat
  connectAttempts : Nat
  queriesExecuted : Nat
  cursorClosed : Bool
  connClosed : Bool
deriving DecidableEq, Repr

/-- `test_connection.py` module body: connect with the six environment
values, run one `SELECT COUNT(*) FROM SUPPLIERS` (outcome `countResult`,
the warehouse being external), print the two status lines, close cursor and
connection. An exception at either step is uncaught: the Python runtime
exits with code 1 and nothing after the failure point runs. -/
def test_connection_script (handshakeOk : Bool) (env : SnowflakeEnv)
    (countResult : Except String Nat) : ScriptRun :=
  match snowflake_connect handshakeOk env with
  | .error _ => ⟨[], 1, 1, 0, false, false⟩
  | .ok _ =>
    match countResult with
    | .error _ =>
        ⟨["✅ Connected to Snowflake successfully!"], 1, 1, 1, false, false⟩
    | .ok n =>
        ⟨["✅ Connected to Snowflake successfully!",
          "📊 Number of suppliers in database: " ++ toString n],
         0, 1, 1, true, true⟩

/-! Section: Concrete data for counterexamples -/

/-- Cold-start dashboard state: no cache entry, no executions yet. -/
def dashInit : DashState :=
  ⟨⟨none, 0⟩, ⟨none, 0⟩, ⟨none, 0⟩, ⟨none, 0⟩⟩

/-- A risk-score row present in the warehouse view up to second 300. -/
def riskRowEarly : RiskScoreRow :=
  ⟨1, "Acme", some (-(1 : Rat)/2), 3, 2, "HIGH_RISK"⟩

/-- The same supplier's row after the view content changes at second 300. -/
def riskRowLate : RiskScoreRow :=
  ⟨1, "Acme", some ((2 : Rat)/5), 4, 2, "LOW_RISK"⟩

/-- A warehouse whose risk view changes content at second 300 and whose
other views are empty. -/
def cexWarehouse : Warehouse where
  riskView t := if t ≤ 300 then [riskRowEarly] else [riskRowLate]
  alertsView _ := []
  trendData _ := []
  categoryRollup _ := []

/-! Theorems. -/

/-- Helper: a list of options with no `none` keeps its length under
`filterMap id`. -/
theorem filterMap_id_length_of_all_some {α : Type} (l : List (Option α))
    (h : ∀ x ∈ l, x ≠ none) : (l.filterMap id).length = l.length := by
  induction l with
  | nil => rfl
  | cons x xs ih =>
    rcases x with _ | v
    · exact absurd rfl (h none (.head _))
    · simp only [List.filterMap_cons, id, List.length_cons]
      rw [ih (fun y hy => h y (.tail _ hy))]

/-- C3: `get_snowflake_connection` constructs the connection exactly once per
process from the six environment values; on a cold cache a successful
handshake stores and returns the handle built from exactly those six values
and bumps the construction count to one; from a warm cache every call returns
the same stored handle with no new construction, for any handshake outcome;
and on a cold cache a handshake failure propagates as an error to the caller. -/
theorem connection_singleton_contract (env : SnowflakeEnv)
    (c : SnowflakeConnection) (n : Nat) (hs : Bool) :
    (get_snowflake_connection true env ⟨none, n⟩ =
      .ok (⟨env.SNOWFLAKE_ACCOUNT, env.SNOWFLAKE_USER, env.SNOWFLAKE_PASSWORD,
            env.SNOWFLAKE_WAREHOUSE, env.SNOWFLAKE_DATABASE, env.SNOWFLAKE_SCHEMA⟩,
           ⟨some ⟨env.SNOWFLAKE_ACCOUNT, env.SNOWFLAKE_USER, env.SNOWFLAKE_PASSWORD,
                 env.SNOWFLAKE_WAREHOUSE, env.SNOWFLAKE_DATABASE, env.SNOWFLAKE_SCHEMA⟩,
            n + 1⟩)) ∧
    (get_snowflake_connection hs env ⟨some c, n⟩ = .ok (c, ⟨some c, n⟩)) ∧
    (get_snowflake_connection false env ⟨none, n⟩ = .error "handshake failed") :=
  ⟨rfl, rfl, rfl⟩

/-- C1 (amended): TTL-cache behavior of the four accessors. (i) A first
execution at `t₀` followed by any call at `t₁` within 300 seconds of that
refresh performs exactly one underlying execution in total and both calls
return the identical row-set computed at `t₀`; (ii) a call more than 300
seconds after the last refresh performs exactly one new execution and
returns the row-set the query computes on the current data; (iii) a call
within 300 seconds of the last refresh returns the stored row-set with no
new execution; (iv) each accessor touches only its own cache, so the four
TTL clocks are independent. -/
theorem cache_ttl_refresh (α : Type) (q : Nat → α) (cnt t₀ t₁ now : Nat) (v : α) :
    (t₁ - t₀ ≤ 300 →
      (cachedCall 300 q t₀ ⟨none, cnt⟩).1 = q t₀ ∧
      (cachedCall 300 q t₀ ⟨none, cnt⟩).2.execCount = cnt + 1 ∧
      (cachedCall 300 q t₁ (cachedCall 300 q t₀ ⟨none, cnt⟩).2).1 = q t₀ ∧
      (cachedCall 300 q t₁ (cachedCall 300 q t₀ ⟨none, cnt⟩).2).2 =
        (cachedCall 300 q t₀ ⟨none, cnt⟩).2) ∧
    (300 < now - t₀ →
      cachedCall 300 q now ⟨some ⟨v, t₀⟩, cnt⟩ = (q now, ⟨some ⟨q now, now⟩, cnt + 1⟩)) ∧
    (now - t₀ ≤ 300 →
      cachedCall 300 q now ⟨some ⟨v, t₀⟩, cnt⟩ = (v, ⟨some ⟨v, t₀⟩, cnt⟩)) ∧
    (∀ (w : Warehouse) (st : DashState) (t : Nat),
      (get_supplier_risk_scores w t st).2.alertsCache = st.alertsCache ∧
      (get_supplier_risk_scores w t st).2.trendCache = st.trendCache ∧
      (get_supplier_risk_scores w t st).2.categoryCache = st.categoryCache ∧
      (get_recent_alerts w t st).2.riskCache = st.riskCache ∧
      (get_recent_alerts w t st).2.trendCache = st.trendCache ∧
      (get_recent_alerts w t st).2.categoryCache = st.categoryCache ∧
      (get_sentiment_trend w t st).2.riskCache = st.riskCache ∧
      (get_sentiment_trend w t st).2.alertsCache = st.alertsCache ∧
      (get_sentiment_trend w t st).2.categoryCache = st.categoryCache ∧
      (get_category_analysis w t st).2.riskCache = st.riskCache ∧
      (get_category_analysis w t st).2.alertsCache = st.alertsCache ∧
      (get_category_analysis w t st).2.trendCache = st.trendCache) := by
  refine ⟨fun h => ?_, fun h => ?_, fun h => ?_, fun w st t => ?_⟩
  · simp [cachedCall, h]
  · simp [cachedCall]
    omega
  · simp [cachedCall, h]
  · exact ⟨rfl, rfl, rfl, rfl, rfl, rfl, rfl, rfl, rfl, rfl, rfl, rfl⟩

/-- Witness for C1's amended theorem at concrete inputs: a hit 250 seconds
after the refresh returns the stored value, and a call 301 seconds after the
refresh re-executes and stores the fresh value. -/
theorem cache_ttl_refresh_witness :
    (cachedCall 300 (fun _ => (7 : Nat)) 250
      (cachedCall 300 (fun _ => (7 : Nat)) 0 ⟨none, 0⟩).2).1 = 7 ∧
    cachedCall 300 (fun _ => (9 : Nat)) 301 ⟨some ⟨7, 0⟩, 1⟩ =
      (9, ⟨some ⟨9, 301⟩, 2⟩) :=
  ⟨((cache_ttl_refresh Nat (fun _ => 7) 0 0 250 0 7).1 (by decide)).2.2.1,
   (cache_ttl_refresh Nat (fun _ => 9) 1 0 0 301 7).2.1 (by decide)⟩

/-- C1 counterexample: as literally stated, the claim fails. With the risk
view changing at second 300, the calls to `get_supplier_risk_scores` at
seconds 299 and 301 are within 300 seconds of each other, yet the second one
crosses the expiry boundary of the refresh done at second 0 and returns a
different row-set. -/
theorem cache_calls_close_together_differ :
    301 - 299 ≤ 300 ∧
    (get_supplier_risk_scores cexWarehouse 299
        (get_supplier_risk_scores cexWarehouse 0 dashInit).2).1 = [riskRowEarly] ∧
    (get_supplier_risk_scores cexWarehouse 301
        (get_supplier_risk_scores cexWarehouse 299
          (get_supplier_risk_scores cexWarehouse 0 dashInit).2).2).1 = [riskRowLate] ∧
    [riskRowEarly] ≠ [riskRowLate] := by
  refine ⟨by decide, rfl, rfl, by simp [riskRowEarly, riskRowLate]⟩

/-- Helper: on four successful fetches the render pass emits the header
followed by the full body. -/
theorem main_ok (v : List RiskScoreRow) (a : List AlertRow)
    (t : List TrendPoint) (c : List CategoryRow) :
    App.main (.ok v) (.ok a) (.ok t) (.ok c) =
      headerWidgets ++ renderBody v a t c := rfl

/-- C4: when any of the four fetches fails, the render pass emits exactly the
static header followed by the single error banner (carrying the exception
text) and the remediation hint, and no data-driven widget — no metric, table,
chart or alert entry — appears on the page. -/
theorem error_boundary_aborts_render (fr : Except String (List RiskScoreRow))
    (fa : Except String (List AlertRow)) (ft : Except String (List TrendPoint))
    (fc : Except String (List CategoryRow)) (e : String)
    (h : fetchAll fr fa ft fc = .error e) :
    App.main fr fa ft fc =
      headerWidgets ++
        [Widget.errorBanner ("❌ Error connecting to Snowflake: " ++ e),
         Widget.infoHint "Please check your .env file and ensure Snowflake credentials are correct."] ∧
    (App.main fr fa ft fc).countP isBodyWidget = 0 := by
  constructor
  · simp [App.main, h]
  · simp [App.main, h, headerWidgets, isBodyWidget]

/-- Witness for C4: a failing risk-score fetch yields exactly the header,
banner and hint, with no data-driven widget rendered. -/
theorem error_boundary_aborts_render_witness :
    App.main (.error "250001: could not connect") (.ok []) (.ok []) (.ok []) =
      headerWidgets ++
        [Widget.errorBanner ("❌ Error connecting to Snowflake: " ++ "250001: could not connect"),
         Widget.infoHint "Please check your .env file and ensure Snowflake credentials are correct."] ∧
    (App.main (.error "250001: could not connect") (.ok []) (.ok []) (.ok [])).countP isBodyWidget = 0 :=
  error_boundary_aborts_render (.error "250001: could not connect")
    (.ok []) (.ok []) (.ok []) "250001: could not connect" rfl

/-- C5: on a successful render pass the displayed high-risk metric equals the
number of rows of the risk-score snapshot whose `RISK_CATEGORY` is
`HIGH_RISK`. -/
theorem high_risk_metric_counts_high_risk_rows (v : List RiskScoreRow)
    (a : List AlertRow) (t : List TrendPoint) (c : List CategoryRow) :
    displayedMetricNat "🔴 High Risk Suppliers"
        (App.main (.ok v) (.ok a) (.ok t) (.ok c)) =
      some (v.countP (fun r => r.RISK_CATEGORY == "HIGH_RISK")) := by
  rw [main_ok]
  simp [headerWidgets, renderBody, displayedMetricNat, List.findSome?,
    List.countP_eq_length_filter]

/-- C6: on a successful render pass, for a snapshot with no NaN sentiment
value the displayed average-sentiment metric is the arithmetic mean of the
`AVG_SENTIMENT_SCORE` column over all rows; for the empty snapshot the metric
is displayed with the undefined (NaN) value rather than crashing. -/
theorem avg_sentiment_metric_is_mean (v : List RiskScoreRow)
    (a : List AlertRow) (t : List TrendPoint) (c : List CategoryRow) :
    ((∀ r ∈ v, r.AVG_SENTIMENT_SCORE ≠ none) → v ≠ [] →
      displayedMetricRat "📊 Avg Sentiment Score"
          (App.main (.ok v) (.ok a) (.ok t) (.ok c)) =
        some (some ((v.filterMap (·.AVG_SENTIMENT_SCORE)).sum / (v.length : Rat)))) ∧
    ((∀ r ∈ v, r.AVG_SENTIMENT_SCORE = none) →
      displayedMetricRat "📊 Avg Sentiment Score"
          (App.main (.ok v) (.ok a) (.ok t) (.ok c)) = some none) ∧
    (v.filterMap (·.AVG_SENTIMENT_SCORE) ≠ [] →
      displayedMetricRat "📊 Avg Sentiment Score"
          (App.main (.ok v) (.ok a) (.ok t) (.ok c)) =
        some (some ((v.filterMap (·.AVG_SENTIMENT_SCORE)).sum /
          ((v.filterMap (·.AVG_SENTIMENT_SCORE)).length : Rat)))) := by
  have hdisp : displayedMetricRat "📊 Avg Sentiment Score"
      (App.main (.ok v) (.ok a) (.ok t) (.ok c)) =
      some (pandasMean (v.map (·.AVG_SENTIMENT_SCORE))) := by
    rw [main_ok]
    simp [headerWidgets, renderBody, displayedMetricRat, List.findSome?]
  have hvals : (v.map (·.AVG_SENTIMENT_SCORE)).filterMap id =
      v.filterMap (·.AVG_SENTIMENT_SCORE) := by
    simp [List.filterMap_map]
  refine ⟨fun hnn hne => ?_, fun hall => ?_, fun hmix => ?_⟩
  · rw [hdisp]
    have hlen : ((v.map (·.AVG_SENTIMENT_SCORE)).filterMap id).length = v.length := by
      rw [filterMap_id_length_of_all_some]
      · exact v.length_map _
      · intro x hx
        rcases List.mem_map.mp hx with ⟨r, hr, hrx⟩
        exact hrx ▸ hnn r hr
    have hlenne : v.length ≠ 0 := by
      simpa [List.length_eq_zero] using hne
    rw [hvals] at hlen
    simp only [pandasMean, hvals]
    rw [hlen, if_neg hlenne]
  · rw [hdisp]
    have hnil : v.filterMap (·.AVG_SENTIMENT_SCORE) = [] := by
      rw [List.filterMap_eq_nil_iff]
      exact hall
    simp only [pandasMean, hvals]
    rw [hnil]
    rfl
  · rw [hdisp]
    have hlenne : (v.filterMap (·.AVG_SENTIMENT_SCORE)).length ≠ 0 := by
      simpa [List.length_eq_zero] using hmix
    simp only [pandasMean, hvals]
    rw [if_neg hlenne]

/-- Witness for C6 at concrete snapshots: the spec scenario rows -1/2 and
2/5 display the mean -1/20 (= -0.05); a nonempty all-NaN snapshot displays
the undefined value; a mixed snapshot (one NaN, one 2/5) displays the
skipna mean 2/5. -/
theorem avg_sentiment_metric_is_mean_witness :
    displayedMetricRat "📊 Avg Sentiment Score"
        (App.main (.ok [⟨1, "S1", some (-(1 : Rat)/2), 0, 0, "HIGH_RISK"⟩,
                        ⟨2, "S2", some ((2 : Rat)/5), 0, 0, "LOW_RISK"⟩])
          (.ok []) (.ok []) (.ok [])) =
      some (some (-(1 : Rat)/20)) ∧
    displayedMetricRat "📊 Avg Sentiment Score"
        (App.main (.ok [⟨1, "S1", none, 0, 0, "HIGH_RISK"⟩])
          (.ok []) (.ok []) (.ok [])) = some none ∧
    displayedMetricRat "📊 Avg Sentiment Score"
        (App.main (.ok [⟨1, "S1", none, 0, 0, "HIGH_RISK"⟩,
                        ⟨2, "S2", some ((2 : Rat)/5), 0, 0, "LOW_RISK"⟩])
          (.ok []) (.ok []) (.ok [])) = some (some ((2 : Rat)/5)) := by
  refine ⟨?_, ?_, ?_⟩
  · have h := (avg_sentiment_metric_is_mean
        [⟨1, "S1", some (-(1 : Rat)/2), 0, 0, "HIGH_RISK"⟩,
         ⟨2, "S2", some ((2 : Rat)/5), 0, 0, "LOW_RISK"⟩] [] [] []).1
        (by intro r hr; fin_cases hr <;> simp) (by simp)
    rw [h]
    norm_num [List.filterMap_cons]
  · exact (avg_sentiment_metric_is_mean
        [⟨1, "S1", none, 0, 0, "HIGH_RISK"⟩] [] [] []).2.1
        (by intro r hr; fin_cases hr; rfl)
  · have h := (avg_sentiment_metric_is_mean
        [⟨1, "S1", none, 0, 0, "HIGH_RISK"⟩,
         ⟨2, "S2", some ((2 : Rat)/5), 0, 0, "LOW_RISK"⟩] [] [] []).2.2
        (by norm_num [List.filterMap_cons])
    rw [h]
    norm_num [List.filterMap_cons]

/-- C6 counterexample: as literally stated, the claim fails on a snapshot
that contains a NaN sentiment value next to a real one. The program (pandas
skipna mean) displays the defined number 2/5 there — neither an undefined
display (which the claim's NaN clause asks for) nor an arithmetic mean over
all rows (undefined when a row is NaN). -/
theorem avg_metric_nan_input_displays_number :
    (∃ r ∈ [(⟨1, "S1", none, 0, 0, "HIGH_RISK"⟩ : RiskScoreRow),
            ⟨2, "S2", some ((2 : Rat)/5), 0, 0, "LOW_RISK"⟩],
       r.AVG_SENTIMENT_SCORE = none) ∧
    displayedMetricRat "📊 Avg Sentiment Score"
        (App.main (.ok [⟨1, "S1", none, 0, 0, "HIGH_RISK"⟩,
                        ⟨2, "S2", some ((2 : Rat)/5), 0, 0, "LOW_RISK"⟩])
          (.ok []) (.ok []) (.ok [])) = some (some ((2 : Rat)/5)) ∧
    some (some ((2 : Rat)/5)) ≠ some (none : Option Rat) := by
  refine ⟨⟨_, List.mem_cons_self _ _, rfl⟩, ?_, by simp⟩
  rw [main_ok]
  simp only [headerWidgets, renderBody, displayedMetricRat, List.findSome?,
    List.cons_append, List.nil_append]
  norm_num [pandasMean, List.filterMap_cons]

/-- C7: the rendered alert list is exactly the LIMIT-10 query output — one
expander per row, each showing supplier, subject, date, sentiment score,
source type and summary — and therefore never holds more than 10 entries,
no matter how many qualifying rows the upstream view has. -/
theorem alert_list_capped_at_ten (view : List AlertRow)
    (v : List RiskScoreRow) (t : List TrendPoint) (c : List CategoryRow) :
    displayedAlertEntries
        (App.main (.ok v) (.ok (runRecentAlertsQuery view)) (.ok t) (.ok c)) =
      (runRecentAlertsQuery view).map
        (fun r => (r.SUPPLIER_NAME, r.SUBJECT, r.COMMUNICATION_DATE,
                   r.SENTIMENT_SCORE, r.SOURCE_TYPE, r.KEY_PHRASES)) ∧
    (displayedAlertEntries
        (App.main (.ok v) (.ok (runRecentAlertsQuery view)) (.ok t) (.ok c))).length ≤ 10 := by
  have hmain : displayedAlertEntries
      (App.main (.ok v) (.ok (runRecentAlertsQuery view)) (.ok t) (.ok c)) =
      (runRecentAlertsQuery view).map
        (fun r => (r.SUPPLIER_NAME, r.SUBJECT, r.COMMUNICATION_DATE,
                   r.SENTIMENT_SCORE, r.SOURCE_TYPE, r.KEY_PHRASES)) := by
    rw [main_ok]
    simp only [headerWidgets, renderBody, displayedAlertEntries,
      List.cons_append, List.nil_append, List.filterMap_append,
      List.filterMap_cons, List.filterMap_nil, List.filterMap_map]
    simp only [List.nil_append, List.append_nil]
    exact congrFun (List.filterMap_eq_map
      (fun r : AlertRow => (r.SUPPLIER_NAME, r.SUBJECT, r.COMMUNICATION_DATE,
        r.SENTIMENT_SCORE, r.SOURCE_TYPE, r.KEY_PHRASES))) (runRecentAlertsQuery view)
  refine ⟨hmain, ?_⟩
  rw [hmain, List.length_map]
  exact List.length_take_le 10 view

/-- C8: the two category bar charts plot exactly the rows of the category
snapshot, in the order the query returned them; that order is ascending by
average sentiment (the query's ORDER BY), the snapshot is a permutation of
the warehouse rollup rows, and the presentation layer does not re-sort. -/
theorem category_charts_plot_snapshot_in_order (rollup : List CategoryRow)
    (v : List RiskScoreRow) (a : List AlertRow) (t : List TrendPoint) :
    displayedBarChartRat "AVG_SENTIMENT"
        (App.main (.ok v) (.ok a) (.ok t) (.ok (runCategoryQuery rollup))) =
      some ((runCategoryQuery rollup).map (fun x => (x.CATEGORY, x.AVG_SENTIMENT))) ∧
    displayedBarChartNat "NEGATIVE_COUNT"
        (App.main (.ok v) (.ok a) (.ok t) (.ok (runCategoryQuery rollup))) =
      some ((runCategoryQuery rollup).map (fun x => (x.CATEGORY, x.NEGATIVE_COUNT))) ∧
    (runCategoryQuery rollup).Sorted catLe ∧
    List.Perm (runCategoryQuery rollup) rollup := by
  refine ⟨?_, ?_, List.sorted_insertionSort catLe rollup,
    List.perm_insertionSort catLe rollup⟩
  · rw [main_ok]
    simp [headerWidgets, renderBody, displayedBarChartRat, List.findSome?]
  · rw [main_ok]
    simp [headerWidgets, renderBody, displayedBarChartNat, List.findSome?]

/-- C10: the risk-score snapshot is the view rows sorted ascending by
`AVG_SENTIMENT_SCORE` (the query's ORDER BY, NULLs last), it is a permutation
of the view rows, and the rendered supplier risk table shows exactly that
snapshot in that order, untouched by the presentation layer. -/
theorem risk_table_sorted_by_sentiment (view : List RiskScoreRow)
    (a : List AlertRow) (t : List TrendPoint) (c : List CategoryRow) :
    displayedTableRows
        (App.main (.ok (runRiskScoreQuery view)) (.ok a) (.ok t) (.ok c)) =
      some (runRiskScoreQuery view) ∧
    (runRiskScoreQuery view).Sorted riskLe ∧
    List.Perm (runRiskScoreQuery view) view := by
  refine ⟨?_, List.sorted_insertionSort riskLe view,
    List.perm_insertionSort riskLe view⟩
  rw [main_ok]
  simp [headerWidgets, renderBody, displayedTableRows, List.findSome?]

/-- C9: the diagnostic script opens one connection from the six environment
values; on success it prints the success line and the supplier count, closes
the cursor and the connection and exits zero after exactly one connection
attempt and one query; a connect failure exits non-zero with no query and no
retry; a query failure exits non-zero after the single query, with no retry. -/
theorem diagnostic_script_contract (env : SnowflakeEnv) (n : Nat)
    (qr : Except String Nat) (qerr : String) :
    (test_connection_script true env (.ok n) =
      ⟨["✅ Connected to Snowflake successfully!",
        "📊 Number of suppliers in database: " ++ toString n],
       0, 1, 1, true, true⟩) ∧
    (snowflake_connect true env =
      .ok ⟨env.SNOWFLAKE_ACCOUNT, env.SNOWFLAKE_USER, env.SNOWFLAKE_PASSWORD,
           env.SNOWFLAKE_WAREHOUSE, env.SNOWFLAKE_DATABASE, env.SNOWFLAKE_SCHEMA⟩) ∧
    ((test_connection_script false env qr).exitCode ≠ 0 ∧
     (test_connection_script false env qr).connectAttempts = 1 ∧
     (test_connection_script false env qr).queriesExecuted = 0) ∧
    ((test_connection_script true env (.error qerr)).exitCode ≠ 0 ∧
     (test_connection_script true env (.error qerr)).connectAttempts = 1 ∧
     (test_connection_script true env (.error qerr)).queriesExecuted = 1) :=
  ⟨rfl, rfl, ⟨Nat.one_ne_zero, rfl, rfl⟩, ⟨Nat.one_ne_zero, rfl, rfl⟩⟩
